import Mathlib

/-!
Shallow embedding of the gdb-mcp session-management core
(`modules/sessionManager.py` and `modules/gdbTools.py`) and proofs of the
specification claims about it.

Python values that can be a string, `None`, or absent are modelled with
`PyVal` / `Option PyVal`; the external `pygdbmi` controller is modelled as an
abstract `Controller` whose `writeResp` field gives the reply-message sequence
for each command line and whose `exitRaises` flag says whether its `exit()`
call raises.  The registry dictionary is modelled as an insertion-ordered
association list with Python-dict semantics (lookup, membership, insert,
delete).  Façade capabilities return the rendered string together with the
list of command lines written to the subprocess, so that "sends exactly
command c" and "sends zero commands" are stated directly.
-/

set_option autoImplicit false

namespace GdbMcp

/-! ## String containment helper -/

/-- `startsWithL pat l` : the char list `pat` is a prefix of `l`. -/
def startsWithL : List Char → List Char → Bool
  | [], _ => true
  | _ :: _, [] => false
  | p :: ps, c :: cs => p == c && startsWithL ps cs

/-- `hasSub pat l` : the char list `pat` occurs contiguously inside `l`. -/
def hasSub (pat : List Char) : List Char → Bool
  | [] => startsWithL pat []
  | c :: cs => startsWithL pat (c :: cs) || hasSub pat cs

/-- `containsStr s pat` : `pat` occurs as a substring of `s`. -/
def containsStr (s pat : String) : Bool :=
  hasSub pat.data s.data

theorem hasSub_append_right (pat ys xs : List Char) (h : hasSub pat ys = true) :
    hasSub pat (xs ++ ys) = true := by
  induction xs with
  | nil => simpa using h
  | cons x xs ih =>
    simp only [List.cons_append, hasSub, Bool.or_eq_true]
    exact Or.inr ih

theorem containsStr_concat (s t pat : String) (h : containsStr t pat = true) :
    containsStr (s ++ t) pat = true := by
  unfold containsStr at *
  rw [String.data_append]
  exact hasSub_append_right _ _ _ h

/-! ## Reply messages and the renderer (`format_gdb_response`) -/

/-- A Python value that matters to the renderer: `None` or a string. -/
inductive PyVal where
  | pynone
  | pystr (s : String)
deriving DecidableEq

/-- `str(v)` for a `PyVal`. -/
def pyStrOf : PyVal → String
  | .pynone => "None"
  | .pystr s => s

/-- Python truthiness of a `PyVal` (`None` and `""` are falsy). -/
def pyTruthy : PyVal → Bool
  | .pynone => false
  | .pystr s => !s.isEmpty

/-- ASCII model of Python `str.title()`: first letter of each alphabetic run
is uppercased, the rest lowercased. -/
def pyTitleAux : Bool → List Char → List Char
  | _, [] => []
  | prevAlpha, c :: cs =>
    if c.isAlpha then
      (if prevAlpha then c.toLower else c.toUpper) :: pyTitleAux true cs
    else
      c :: pyTitleAux false cs

def pyTitle (s : String) : String :=
  ⟨pyTitleAux false s.data⟩

/-- One reply message from the debugger, as a `pygdbmi` dictionary: the
`type`, `payload` and `message` fields may each be absent (`Option.none`),
and `payload` may be Python `None`. -/
structure GdbMsg where
  type? : Option String
  payload? : Option PyVal
  message? : Option String

/-- One line of `format_gdb_response`'s loop body
(`modules/gdbTools.py` lines 16-34): each message contributes exactly one
formatted line. -/
def formatMsg (msg : GdbMsg) : String :=
  let msg_type := msg.type?.getD "unknown"
  let payload := msg.payload?.getD (PyVal.pystr "")
  if msg_type = "console" then "Console: " ++ pyStrOf payload
  else if msg_type = "log" then "Log: " ++ pyStrOf payload
  else if msg_type = "target" then "Target: " ++ pyStrOf payload
  else if msg_type = "result" then
    let message := msg.message?.getD ""
    if message = "done" then
      let payload_str :=
        if pyTruthy payload then pyStrOf payload else "Command completed successfully"
      "Result: " ++ payload_str
    else
      "Result (" ++ message ++ "): " ++ pyStrOf payload
  else
    pyTitle msg_type ++ ": " ++ pyStrOf payload

/-- `format_gdb_response` (`modules/gdbTools.py` lines 10-36). -/
def format_gdb_response (response : List GdbMsg) : String :=
  if response.isEmpty then "No response from GDB"
  else
    let formatted_lines := response.map formatMsg
    if formatted_lines.isEmpty then "Command executed"
    else String.intercalate "\n" formatted_lines

theorem format_gdb_response_nonempty (msgs : List GdbMsg) (h : msgs ≠ []) :
    format_gdb_response msgs = String.intercalate "\n" (msgs.map formatMsg) := by
  unfold format_gdb_response
  cases msgs with
  | nil => exact absurd rfl h
  | cons a as => simp

/-! ## Python-dict model: insertion-ordered association list -/

section Dict

variable {α : Type}

/-- `d[k]` lookup (first matching key; keys are unique by construction). -/
def dictLookup : List (String × α) → String → Option α
  | [], _ => none
  | (k, v) :: rest, key => if k = key then some v else dictLookup rest key

/-- `k in d`. -/
def dictContains (l : List (String × α)) (key : String) : Bool :=
  (dictLookup l key).isSome

/-- `d[k] = v`: update in place when the key exists, else append. -/
def dictInsert : List (String × α) → String → α → List (String × α)
  | [], key, v => [(key, v)]
  | (k, w) :: rest, key, v =>
    if k = key then (k, v) :: rest else (k, w) :: dictInsert rest key v

/-- `del d[k]`. -/
def dictErase : List (String × α) → String → List (String × α)
  | [], _ => []
  | (k, v) :: rest, key =>
    if k = key then dictErase rest key else (k, v) :: dictErase rest key

/-- `list(d.keys())`. -/
def dictKeys (l : List (String × α)) : List String :=
  l.map Prod.fst

theorem dictLookup_insert (l : List (String × α)) (k : String) (v : α) :
    dictLookup (dictInsert l k v) k = some v := by
  induction l with
  | nil => simp [dictInsert, dictLookup]
  | cons p rest ih =>
    obtain ⟨k1, v1⟩ := p
    by_cases h : k1 = k
    · simp [dictInsert, dictLookup, h]
    · simp [dictInsert, dictLookup, h, ih]

theorem mem_dictKeys_insert (l : List (String × α)) (k : String) (v : α) :
    k ∈ dictKeys (dictInsert l k v) := by
  induction l with
  | nil => simp [dictInsert, dictKeys]
  | cons p rest ih =>
    obtain ⟨k1, v1⟩ := p
    by_cases h : k1 = k
    · simp [dictInsert, dictKeys, h]
    · simp only [dictInsert, if_neg h, dictKeys, List.map_cons, List.mem_cons]
      exact Or.inr ih

theorem dictLookup_erase (l : List (String × α)) (k : String) :
    dictLookup (dictErase l k) k = none := by
  induction l with
  | nil => rfl
  | cons p rest ih =>
    obtain ⟨k1, v1⟩ := p
    by_cases h : k1 = k <;> simp [dictErase, dictLookup, h, ih]

end Dict

/-! ## The subprocess handle and the session registry
(`modules/sessionManager.py`) -/

/-- Abstract model of a `pygdbmi.GdbController`: `writeResp c` is the reply
sequence `gdb.write(c)` returns, and `exitRaises` says whether `gdb.exit()`
raises an exception. -/
structure Controller where
  writeResp : String → List GdbMsg
  exitRaises : Bool

/-- `GDBSessionManager` state: the `self.sessions` dictionary. -/
structure GDBSessionManager where
  sessions : List (String × Controller)

/-- `create_session` (`modules/sessionManager.py` lines 16-27).
`session_id` stands for the fresh `str(uuid.uuid4())` and `spawn` for the
outcome of `GdbController(command=[gdb_path])`: `.ok ctrl` when the spawn
succeeds, `.error e` when it raises (the exception is re-raised, so the
registry is left as it was — the insert statement comes after the spawn). -/
def GDBSessionManager.create_session (m : GDBSessionManager) (session_id : String)
    (spawn : Except String Controller) : Except String String × GDBSessionManager :=
  match spawn with
  | .error e => (.error e, m)
  | .ok gdb_controller =>
      (.ok session_id, ⟨dictInsert m.sessions session_id gdb_controller⟩)

/-- The `ValueError` message raised by `get_session`
(`modules/sessionManager.py` line 32). -/
def sessionNotFoundMsg (session_id : String) : String :=
  "GDB session '" ++ session_id ++ "' not found. Use gdb_list_sessions to see active sessions."

/-- `get_session` (`modules/sessionManager.py` lines 29-33): raises
(`.error`) when the identifier is absent. -/
def GDBSessionManager.get_session (m : GDBSessionManager) (session_id : String) :
    Except String Controller :=
  match dictLookup m.sessions session_id with
  | none => .error (sessionNotFoundMsg session_id)
  | some gdb => .ok gdb

/-- `terminate_session` (`modules/sessionManager.py` lines 35-48): absent id
returns `false`; when `gdb.exit()` raises, the `except` branch returns
`false` before `del self.sessions[session_id]` is reached, so the registry
is unchanged; otherwise the entry is deleted and `true` returned. -/
def GDBSessionManager.terminate_session (m : GDBSessionManager) (session_id : String) :
    Bool × GDBSessionManager :=
  match dictLookup m.sessions session_id with
  | none => (false, m)
  | some gdb =>
      if gdb.exitRaises then (false, m)
      else (true, ⟨dictErase m.sessions session_id⟩)

/-- `list_sessions` (`modules/sessionManager.py` lines 50-52). -/
def GDBSessionManager.list_sessions (m : GDBSessionManager) : List String :=
  dictKeys m.sessions

/-- `has_session` (`modules/sessionManager.py` lines 54-56). -/
def GDBSessionManager.has_session (m : GDBSessionManager) (session_id : String) : Bool :=
  dictContains m.sessions session_id

/-! ## The command façade (`modules/gdbTools.py`, class `GDBTools`)

Each capability returns the rendered result string together with the list of
command lines written to the subprocess (empty when the blanket `except`
caught a `get_session` failure or a precondition check returned early).
`load_program` / `load_core_dump` additionally take the ambient
`Path(...).exists()` predicate as an explicit environment parameter. -/

structure GDBTools where
  sessionManager : GDBSessionManager

/-- `terminate_session` façade (`modules/gdbTools.py` lines 52-60); returns
the result string and the updated registry. -/
def GDBTools.terminate_session (t : GDBTools) (session_id : String) :
    String × GDBSessionManager :=
  let r := t.sessionManager.terminate_session session_id
  if r.1 then ("GDB session '" ++ session_id ++ "' terminated successfully", r.2)
  else ("GDB session '" ++ session_id ++ "' not found", r.2)

/-- `load_program` (`modules/gdbTools.py` lines 71-82). -/
def GDBTools.load_program (t : GDBTools) (fileExists : String → Bool)
    (session_id program_path : String) : String × List String :=
  match t.sessionManager.get_session session_id with
  | .error e => ("Error loading program: " ++ e, [])
  | .ok gdb =>
      if !fileExists program_path then
        ("Error: Program file '" ++ program_path ++ "' does not exist", [])
      else
        let cmd := "file " ++ program_path
        (format_gdb_response (gdb.writeResp cmd), [cmd])

/-- `execute_command` (`modules/gdbTools.py` lines 84-91). -/
def GDBTools.execute_command (t : GDBTools) (session_id command : String) :
    String × List String :=
  match t.sessionManager.get_session session_id with
  | .error e => ("Error executing command: " ++ e, [])
  | .ok gdb => (format_gdb_response (gdb.writeResp command), [command])

/-- `attach_to_process` (`modules/gdbTools.py` lines 93-100). -/
def GDBTools.attach_to_process (t : GDBTools) (session_id : String) (pid : Int) :
    String × List String :=
  match t.sessionManager.get_session session_id with
  | .error e => ("Error attaching to process: " ++ e, [])
  | .ok gdb =>
      let cmd := "attach " ++ toString pid
      (format_gdb_response (gdb.writeResp cmd), [cmd])

/-- `load_core_dump` (`modules/gdbTools.py` lines 102-113). -/
def GDBTools.load_core_dump (t : GDBTools) (fileExists : String → Bool)
    (session_id core_file : String) : String × List String :=
  match t.sessionManager.get_session session_id with
  | .error e => ("Error loading core dump: " ++ e, [])
  | .ok gdb =>
      if !fileExists core_file then
        ("Error: Core file '" ++ core_file ++ "' does not exist", [])
      else
        let cmd := "core " ++ core_file
        (format_gdb_response (gdb.writeResp cmd), [cmd])

/-- `set_breakpoint` (`modules/gdbTools.py` lines 115-122). -/
def GDBTools.set_breakpoint (t : GDBTools) (session_id location : String) :
    String × List String :=
  match t.sessionManager.get_session session_id with
  | .error e => ("Error setting breakpoint: " ++ e, [])
  | .ok gdb =>
      let cmd := "break " ++ location
      (format_gdb_response (gdb.writeResp cmd), [cmd])

/-- `continue_execution` (`modules/gdbTools.py` lines 124-131). -/
def GDBTools.continue_execution (t : GDBTools) (session_id : String) :
    String × List String :=
  match t.sessionManager.get_session session_id with
  | .error e => ("Error continuing execution: " ++ e, [])
  | .ok gdb => (format_gdb_response (gdb.writeResp "continue"), ["continue"])

/-- `step_execution` (`modules/gdbTools.py` lines 133-140). -/
def GDBTools.step_execution (t : GDBTools) (session_id : String) :
    String × List String :=
  match t.sessionManager.get_session session_id with
  | .error e => ("Error stepping execution: " ++ e, [])
  | .ok gdb => (format_gdb_response (gdb.writeResp "step"), ["step"])

/-- `next_execution` (`modules/gdbTools.py` lines 142-149). -/
def GDBTools.next_execution (t : GDBTools) (session_id : String) :
    String × List String :=
  match t.sessionManager.get_session session_id with
  | .error e => ("Error stepping to next line: " ++ e, [])
  | .ok gdb => (format_gdb_response (gdb.writeResp "next"), ["next"])

/-- `finish_function` (`modules/gdbTools.py` lines 151-158). -/
def GDBTools.finish_function (t : GDBTools) (session_id : String) :
    String × List String :=
  match t.sessionManager.get_session session_id with
  | .error e => ("Error finishing function: " ++ e, [])
  | .ok gdb => (format_gdb_response (gdb.writeResp "finish"), ["finish"])

/-- `get_backtrace` (`modules/gdbTools.py` lines 160-167). -/
def GDBTools.get_backtrace (t : GDBTools) (session_id : String) :
    String × List String :=
  match t.sessionManager.get_session session_id with
  | .error e => ("Error getting backtrace: " ++ e, [])
  | .ok gdb => (format_gdb_response (gdb.writeResp "backtrace"), ["backtrace"])

/-- `print_expression` (`modules/gdbTools.py` lines 169-176). -/
def GDBTools.print_expression (t : GDBTools) (session_id expression : String) :
    String × List String :=
  match t.sessionManager.get_session session_id with
  | .error e => ("Error printing expression: " ++ e, [])
  | .ok gdb =>
      let cmd := "print " ++ expression
      (format_gdb_response (gdb.writeResp cmd), [cmd])

/-- `examine_memory` (`modules/gdbTools.py` lines 178-185). -/
def GDBTools.examine_memory (t : GDBTools) (session_id address format_spec : String) :
    String × List String :=
  match t.sessionManager.get_session session_id with
  | .error e => ("Error examining memory: " ++ e, [])
  | .ok gdb =>
      let cmd := "x/" ++ format_spec ++ " " ++ address
      (format_gdb_response (gdb.writeResp cmd), [cmd])

/-- `get_registers` (`modules/gdbTools.py` lines 187-194). -/
def GDBTools.get_registers (t : GDBTools) (session_id : String) :
    String × List String :=
  match t.sessionManager.get_session session_id with
  | .error e => ("Error getting register info: " ++ e, [])
  | .ok gdb => (format_gdb_response (gdb.writeResp "info registers"), ["info registers"])

/-- `disassemble_function` (`modules/gdbTools.py` lines 196-205). -/
def GDBTools.disassemble_function (t : GDBTools) (session_id function_name : String)
    (mixed_mode : Bool) : String × List String :=
  match t.sessionManager.get_session session_id with
  | .error e => ("Error disassembling function: " ++ e, [])
  | .ok gdb =>
      let mode := if mixed_mode then "1" else "0"
      let cmd := "-data-disassemble -f " ++ function_name ++ " -- " ++ mode
      (format_gdb_response (gdb.writeResp cmd), [cmd])

/-- `disassemble_address_range` (`modules/gdbTools.py` lines 207-215). -/
def GDBTools.disassemble_address_range (t : GDBTools)
    (session_id start_addr end_addr : String) (mixed_mode : Bool) :
    String × List String :=
  match t.sessionManager.get_session session_id with
  | .error e => ("Error disassembling address range: " ++ e, [])
  | .ok gdb =>
      let mode := if mixed_mode then "1" else "0"
      let cmd := "-data-disassemble -s " ++ start_addr ++ " -e " ++ end_addr ++ " -- " ++ mode
      (format_gdb_response (gdb.writeResp cmd), [cmd])

/-- `disassemble_around_pc` (`modules/gdbTools.py` lines 217-226). -/
def GDBTools.disassemble_around_pc (t : GDBTools) (session_id : String)
    (instruction_count : Int) (mixed_mode : Bool) : String × List String :=
  match t.sessionManager.get_session session_id with
  | .error e => ("Error disassembling around PC: " ++ e, [])
  | .ok gdb =>
      let mode := if mixed_mode then "1" else "0"
      let cmd := "-data-disassemble -s $pc -e \"$pc + " ++ toString (instruction_count * 4)
        ++ "\" -- " ++ mode
      (format_gdb_response (gdb.writeResp cmd), [cmd])

/-- `get_local_variables` (`modules/gdbTools.py` lines 228-237). -/
def GDBTools.get_local_variables (t : GDBTools) (session_id : String)
    (print_values : Bool) : String × List String :=
  match t.sessionManager.get_session session_id with
  | .error e => ("Error getting local variables: " ++ e, [])
  | .ok gdb =>
      let values_flag := if print_values then "1" else "0"
      let cmd := "-stack-list-locals " ++ values_flag
      (format_gdb_response (gdb.writeResp cmd), [cmd])

/-- `get_function_arguments` (`modules/gdbTools.py` lines 239-247). -/
def GDBTools.get_function_arguments (t : GDBTools) (session_id : String)
    (print_values : Bool) : String × List String :=
  match t.sessionManager.get_session session_id with
  | .error e => ("Error getting function arguments: " ++ e, [])
  | .ok gdb =>
      let values_flag := if print_values then "1" else "0"
      let cmd := "-stack-list-arguments " ++ values_flag
      (format_gdb_response (gdb.writeResp cmd), [cmd])

/-- `get_stack_frames` (`modules/gdbTools.py` lines 249-259): the bounded
command is sent only when BOTH frame bounds are non-`None`. -/
def GDBTools.get_stack_frames (t : GDBTools) (session_id : String)
    (low_frame high_frame : Option Int) : String × List String :=
  match t.sessionManager.get_session session_id with
  | .error e => ("Error getting stack frames: " ++ e, [])
  | .ok gdb =>
      match low_frame, high_frame with
      | some lo, some hi =>
          let cmd := "-stack-list-frames " ++ toString lo ++ " " ++ toString hi
          (format_gdb_response (gdb.writeResp cmd), [cmd])
      | _, _ =>
          (format_gdb_response (gdb.writeResp "-stack-list-frames"), ["-stack-list-frames"])

/-- `evaluate_expression` (`modules/gdbTools.py` lines 261-268). -/
def GDBTools.evaluate_expression (t : GDBTools) (session_id expression : String) :
    String × List String :=
  match t.sessionManager.get_session session_id with
  | .error e => ("Error evaluating expression: " ++ e, [])
  | .ok gdb =>
      let cmd := "-data-evaluate-expression \"" ++ expression ++ "\""
      (format_gdb_response (gdb.writeResp cmd), [cmd])

/-- `get_register_names` (`modules/gdbTools.py` lines 270-277). -/
def GDBTools.get_register_names (t : GDBTools) (session_id : String) :
    String × List String :=
  match t.sessionManager.get_session session_id with
  | .error e => ("Error getting register names: " ++ e, [])
  | .ok gdb =>
      (format_gdb_response (gdb.writeResp "-data-list-register-names"),
        ["-data-list-register-names"])

/-- `get_register_values` (`modules/gdbTools.py` lines 279-290): the Python
`if register_numbers:` truthiness test is false for both `None` and `[]`. -/
def GDBTools.get_register_values (t : GDBTools) (session_id : String)
    (register_numbers : Option (List Int)) : String × List String :=
  match t.sessionManager.get_session session_id with
  | .error e => ("Error getting register values: " ++ e, [])
  | .ok gdb =>
      match register_numbers with
      | some (n :: ns) =>
          let reg_list := String.intercalate " " ((n :: ns).map toString)
          let cmd := "-data-list-register-values x " ++ reg_list
          (format_gdb_response (gdb.writeResp cmd), [cmd])
      | _ =>
          (format_gdb_response (gdb.writeResp "-data-list-register-values x"),
            ["-data-list-register-values x"])

/-- `get_changed_registers` (`modules/gdbTools.py` lines 292-299). -/
def GDBTools.get_changed_registers (t : GDBTools) (session_id : String) :
    String × List String :=
  match t.sessionManager.get_session session_id with
  | .error e => ("Error getting changed registers: " ++ e, [])
  | .ok gdb =>
      (format_gdb_response (gdb.writeResp "-data-list-changed-registers"),
        ["-data-list-changed-registers"])

/-- `read_memory_bytes` (`modules/gdbTools.py` lines 301-308). -/
def GDBTools.read_memory_bytes (t : GDBTools) (session_id address : String)
    (byte_count : Int) : String × List String :=
  match t.sessionManager.get_session session_id with
  | .error e => ("Error reading memory bytes: " ++ e, [])
  | .ok gdb =>
      let cmd := "-data-read-memory-bytes " ++ address ++ " " ++ toString byte_count
      (format_gdb_response (gdb.writeResp cmd), [cmd])

/-- `get_thread_info` (`modules/gdbTools.py` lines 310-317). -/
def GDBTools.get_thread_info (t : GDBTools) (session_id : String) :
    String × List String :=
  match t.sessionManager.get_session session_id with
  | .error e => ("Error getting thread info: " ++ e, [])
  | .ok gdb => (format_gdb_response (gdb.writeResp "-thread-info"), ["-thread-info"])

/-- `switch_thread` (`modules/gdbTools.py` lines 319-326). -/
def GDBTools.switch_thread (t : GDBTools) (session_id thread_id : String) :
    String × List String :=
  match t.sessionManager.get_session session_id with
  | .error e => ("Error switching thread: " ++ e, [])
  | .ok gdb =>
      let cmd := "-thread-select " ++ thread_id
      (format_gdb_response (gdb.writeResp cmd), [cmd])

/-- `get_breakpoint_list` (`modules/gdbTools.py` lines 328-335). -/
def GDBTools.get_breakpoint_list (t : GDBTools) (session_id : String) :
    String × List String :=
  match t.sessionManager.get_session session_id with
  | .error e => ("Error getting breakpoint list: " ++ e, [])
  | .ok gdb => (format_gdb_response (gdb.writeResp "-break-list"), ["-break-list"])

/-- `delete_breakpoint` (`modules/gdbTools.py` lines 337-344). -/
def GDBTools.delete_breakpoint (t : GDBTools) (session_id breakpoint_number : String) :
    String × List String :=
  match t.sessionManager.get_session session_id with
  | .error e => ("Error deleting breakpoint: " ++ e, [])
  | .ok gdb =>
      let cmd := "-break-delete " ++ breakpoint_number
      (format_gdb_response (gdb.writeResp cmd), [cmd])

/-- `enable_breakpoint` (`modules/gdbTools.py` lines 346-353). -/
def GDBTools.enable_breakpoint (t : GDBTools) (session_id breakpoint_number : String) :
    String × List String :=
  match t.sessionManager.get_session session_id with
  | .error e => ("Error enabling breakpoint: " ++ e, [])
  | .ok gdb =>
      let cmd := "-break-enable " ++ breakpoint_number
      (format_gdb_response (gdb.writeResp cmd), [cmd])

/-- `disable_breakpoint` (`modules/gdbTools.py` lines 355-362). -/
def GDBTools.disable_breakpoint (t : GDBTools) (session_id breakpoint_number : String) :
    String × List String :=
  match t.sessionManager.get_session session_id with
  | .error e => ("Error disabling breakpoint: " ++ e, [])
  | .ok gdb =>
      let cmd := "-break-disable " ++ breakpoint_number
      (format_gdb_response (gdb.writeResp cmd), [cmd])

/-- `set_watchpoint` (`modules/gdbTools.py` lines 364-376): the watch kind
selects the flag; anything other than "read" / "access" falls through to the
write form. -/
def GDBTools.set_watchpoint (t : GDBTools) (session_id expression watch_type : String) :
    String × List String :=
  match t.sessionManager.get_session session_id with
  | .error e => ("Error setting watchpoint: " ++ e, [])
  | .ok gdb =>
      if watch_type = "read" then
        let cmd := "-break-watch -r " ++ expression
        (format_gdb_response (gdb.writeResp cmd), [cmd])
      else if watch_type = "access" then
        let cmd := "-break-watch -a " ++ expression
        (format_gdb_response (gdb.writeResp cmd), [cmd])
      else
        let cmd := "-break-watch " ++ expression
        (format_gdb_response (gdb.writeResp cmd), [cmd])

/-- `get_symbol_info` (`modules/gdbTools.py` lines 378-385). -/
def GDBTools.get_symbol_info (t : GDBTools) (session_id symbol_name : String) :
    String × List String :=
  match t.sessionManager.get_session session_id with
  | .error e => ("Error getting symbol info: " ++ e, [])
  | .ok gdb =>
      let cmd := "-symbol-info-functions --name " ++ symbol_name
      (format_gdb_response (gdb.writeResp cmd), [cmd])

/-- `list_source_files` (`modules/gdbTools.py` lines 387-394). -/
def GDBTools.list_source_files (t : GDBTools) (session_id : String) :
    String × List String :=
  match t.sessionManager.get_session session_id with
  | .error e => ("Error listing source files: " ++ e, [])
  | .ok gdb =>
      (format_gdb_response (gdb.writeResp "-file-list-exec-source-files"),
        ["-file-list-exec-source-files"])

/-! ## Concrete fixtures used by witnesses and counterexamples -/

/-- A controller whose `exit()` succeeds. -/
def okCtrl : Controller := ⟨fun _ => [], false⟩

/-- A controller whose `exit()` raises. -/
def badCtrl : Controller := ⟨fun _ => [], true⟩

/-- A registry holding one healthy session "s1". -/
def mOne : GDBSessionManager := ⟨[("s1", okCtrl)]⟩

/-- A registry holding one session "s2" whose exit call raises. -/
def mBad : GDBSessionManager := ⟨[("s2", badCtrl)]⟩

/-- A façade over an empty registry. -/
def tEmpty : GDBTools := ⟨⟨[]⟩⟩

/-- A façade over `mOne`. -/
def tOne : GDBTools := ⟨mOne⟩

/-! ## Claim theorems -/

/-- Claim C1 counterexample: with a session whose subprocess `exit()` raises,
`terminate_session` returns `false` but the registry entry is NOT removed —
`has_session` still returns `true` afterwards, refuting "the registry entry
is removed regardless, so a subsequent exists check returns false". -/
theorem terminate_exit_failure_counterexample :
    (mBad.terminate_session "s2").1 = false ∧
    (mBad.terminate_session "s2").2.has_session "s2" = true :=
  ⟨rfl, rfl⟩

/-- Claim C1 (amended): if the subprocess-layer exit call raises during
terminate, `terminate_session` returns `false` and leaves the registry
UNCHANGED — the entry stays, so a subsequent exists check still returns true;
the `del` statement is only reached when `exit()` does not raise. -/
theorem terminate_exit_failure_keeps_entry (m : GDBSessionManager) (sid : String)
    (g : Controller) (hl : dictLookup m.sessions sid = some g)
    (hex : g.exitRaises = true) :
    m.terminate_session sid = (false, m) := by
  simp [GDBSessionManager.terminate_session, hl, hex]

/-- Witness for `terminate_exit_failure_keeps_entry` at the concrete
registry `mBad`. -/
theorem terminate_exit_failure_keeps_entry_witness :
    dictLookup mBad.sessions "s2" = some badCtrl ∧ badCtrl.exitRaises = true ∧
      mBad.terminate_session "s2" = (false, mBad) :=
  ⟨rfl, rfl, terminate_exit_failure_keeps_entry mBad "s2" badCtrl rfl rfl⟩

/-- Claim C3: `create_session` with a successful spawn returns an identifier
for which `has_session` is true and which is a member of `list_sessions`;
with a failing spawn the error propagates and the registry is unchanged (no
partial entry). It never returns an identifier that does not exist. -/
theorem create_session_registers_id (m : GDBSessionManager) (sid e : String)
    (ctrl : Controller) :
    (m.create_session sid (.ok ctrl)).1 = .ok sid ∧
    (m.create_session sid (.ok ctrl)).2.has_session sid = true ∧
    sid ∈ (m.create_session sid (.ok ctrl)).2.list_sessions ∧
    m.create_session sid (.error e) = (.error e, m) := by
  refine ⟨rfl, ?_, ?_, rfl⟩
  · simp [GDBSessionManager.create_session, GDBSessionManager.has_session,
      dictContains, dictLookup_insert]
  · simp only [GDBSessionManager.create_session, GDBSessionManager.list_sessions]
    exact mem_dictKeys_insert _ _ _

/-- Claim C4: whenever `terminate_session` returns `true`, `has_session`
afterwards returns `false` and `get_session` fails with the not-found error
for that identifier. -/
theorem terminate_true_removes (m : GDBSessionManager) (sid : String)
    (h : (m.terminate_session sid).1 = true) :
    (m.terminate_session sid).2.has_session sid = false ∧
    (m.terminate_session sid).2.get_session sid = .error (sessionNotFoundMsg sid) := by
  have hm : (m.terminate_session sid).2 = ⟨dictErase m.sessions sid⟩ := by
    cases hl : dictLookup m.sessions sid with
    | none =>
        have hf : m.terminate_session sid = (false, m) := by
          simp [GDBSessionManager.terminate_session, hl]
        rw [hf] at h
        exact Bool.noConfusion h
    | some g =>
        by_cases hex : g.exitRaises = true
        · have hf : m.terminate_session sid = (false, m) := by
            simp [GDBSessionManager.terminate_session, hl, hex]
          rw [hf] at h
          exact Bool.noConfusion h
        · have ht : m.terminate_session sid = (true, ⟨dictErase m.sessions sid⟩) := by
            simp [GDBSessionManager.terminate_session, hl, hex]
          rw [ht]
  rw [hm]
  constructor
  · simp [GDBSessionManager.has_session, dictContains, dictLookup_erase]
  · simp [GDBSessionManager.get_session, dictLookup_erase]

/-- Witness for `terminate_true_removes` at the concrete registry `mOne`. -/
theorem terminate_true_removes_witness :
    (mOne.terminate_session "s1").1 = true ∧
    ((mOne.terminate_session "s1").2.has_session "s1" = false ∧
     (mOne.terminate_session "s1").2.get_session "s1" = .error (sessionNotFoundMsg "s1")) :=
  ⟨rfl, terminate_true_removes mOne "s1" rfl⟩

/-- Claim C8: terminating an identifier absent from the registry (including
a second call after a successful termination) returns `false` and leaves the
registry unchanged. -/
theorem terminate_absent_noop (m : GDBSessionManager) (sid : String)
    (h : m.has_session sid = false) :
    m.terminate_session sid = (false, m) := by
  have hl : dictLookup m.sessions sid = none := by
    cases hx : dictLookup m.sessions sid with
    | none => rfl
    | some g => simp [GDBSessionManager.has_session, dictContains, hx] at h
  simp [GDBSessionManager.terminate_session, hl]

/-- Witness for `terminate_absent_noop`: the second terminate call after a
successful termination of "s1" is a no-op returning `false`. -/
theorem terminate_absent_noop_witness :
    (mOne.terminate_session "s1").2.has_session "s1" = false ∧
    (mOne.terminate_session "s1").2.terminate_session "s1" =
      (false, (mOne.terminate_session "s1").2) :=
  ⟨rfl, terminate_absent_noop _ "s1" rfl⟩

/-- The tail of the precondition error strings contains "does not exist". -/
theorem notExist_in_tail :
    containsStr "' does not exist" "does not exist" = true := by decide

/-- The tail of `sessionNotFoundMsg` contains "not found". -/
theorem notFound_in_tail :
    containsStr "' not found. Use gdb_list_sessions to see active sessions." "not found" = true := by
  decide

/-- The tail of the façade terminate not-found string contains "not found". -/
theorem notFound_in_short_tail :
    containsStr "' not found" "not found" = true := by decide

/-- Claim C6: the renderer's line templates — empty reply, console lines,
done results with empty/absent/None payloads, non-done results, and
order-preserving newline joining of multi-message sequences. -/
theorem renderer_line_templates (p s : String) (m : Option String)
    (msgs : List GdbMsg) (hs : s ≠ "done") (hm : msgs ≠ []) :
    format_gdb_response [] = "No response from GDB" ∧
    format_gdb_response [⟨some "console", some (.pystr p), m⟩] = "Console: " ++ p ∧
    format_gdb_response [⟨some "result", some (.pystr ""), some "done"⟩] =
      "Result: Command completed successfully" ∧
    format_gdb_response [⟨some "result", none, some "done"⟩] =
      "Result: Command completed successfully" ∧
    format_gdb_response [⟨some "result", some .pynone, some "done"⟩] =
      "Result: Command completed successfully" ∧
    format_gdb_response [⟨some "result", some (.pystr p), some s⟩] =
      "Result (" ++ s ++ "): " ++ p ∧
    format_gdb_response msgs = String.intercalate "\n" (msgs.map formatMsg) := by
  refine ⟨rfl, rfl, rfl, rfl, rfl, ?_, format_gdb_response_nonempty msgs hm⟩
  show String.intercalate "\n" [formatMsg ⟨some "result", some (.pystr p), some s⟩] = _
  show formatMsg ⟨some "result", some (.pystr p), some s⟩ = _
  simp [formatMsg, hs, pyStrOf]

/-- Witness for `renderer_line_templates` at concrete payloads. -/
theorem renderer_line_templates_witness :
    (("error" : String) ≠ "done" ∧
      ([(⟨some "console", some (.pystr "Hello"), none⟩ : GdbMsg)] ≠ [])) ∧
    (format_gdb_response [] = "No response from GDB" ∧
     format_gdb_response [⟨some "console", some (.pystr "Hello"), none⟩] = "Console: Hello" ∧
     format_gdb_response [⟨some "result", some (.pystr ""), some "done"⟩] =
       "Result: Command completed successfully" ∧
     format_gdb_response [⟨some "result", none, some "done"⟩] =
       "Result: Command completed successfully" ∧
     format_gdb_response [⟨some "result", some .pynone, some "done"⟩] =
       "Result: Command completed successfully" ∧
     format_gdb_response [⟨some "result", some (.pystr "oops"), some "error"⟩] =
       "Result (error): oops" ∧
     format_gdb_response [⟨some "console", some (.pystr "Hello"), none⟩] =
       String.intercalate "\n"
         ([(⟨some "console", some (.pystr "Hello"), none⟩ : GdbMsg)].map formatMsg)) :=
  ⟨⟨by decide, List.cons_ne_nil _ _⟩,
    by
      have h1 := renderer_line_templates "Hello" "error" none
        [⟨some "console", some (.pystr "Hello"), none⟩] (by decide) (List.cons_ne_nil _ _)
      have h2 := renderer_line_templates "oops" "error" none
        [⟨some "console", some (.pystr "Hello"), none⟩] (by decide) (List.cons_ne_nil _ _)
      exact ⟨h1.1, h1.2.1, h1.2.2.1, h1.2.2.2.1, h1.2.2.2.2.1, h2.2.2.2.2.2.1,
        h1.2.2.2.2.2.2⟩⟩

/-- Claim C7: the renderer is total on every message shape — a missing kind
field falls through to the generic template with kind "unknown", a missing
payload field renders exactly as an empty-string payload, and a non-empty
input always yields one line per message, so the defensive "Command
executed" branch is never taken. -/
theorem renderer_total_defaults (t : Option String) (p : Option PyVal)
    (m : Option String) (msgs : List GdbMsg) (hm : msgs ≠ []) :
    formatMsg ⟨none, p, m⟩ = "Unknown: " ++ pyStrOf (p.getD (PyVal.pystr "")) ∧
    formatMsg ⟨t, none, m⟩ = formatMsg ⟨t, some (PyVal.pystr ""), m⟩ ∧
    (msgs.map formatMsg).length = msgs.length ∧
    format_gdb_response msgs = String.intercalate "\n" (msgs.map formatMsg) := by
  exact ⟨rfl, rfl, by simp, format_gdb_response_nonempty msgs hm⟩

/-- Witness for `renderer_total_defaults` on a message with every field
absent. -/
theorem renderer_total_defaults_witness :
    ([(⟨none, none, none⟩ : GdbMsg)] ≠ []) ∧
    (formatMsg ⟨none, none, none⟩ =
       "Unknown: " ++ pyStrOf ((none : Option PyVal).getD (PyVal.pystr "")) ∧
     formatMsg ⟨none, none, none⟩ = formatMsg ⟨none, some (PyVal.pystr ""), none⟩ ∧
     ([(⟨none, none, none⟩ : GdbMsg)].map formatMsg).length =
       [(⟨none, none, none⟩ : GdbMsg)].length ∧
     format_gdb_response [⟨none, none, none⟩] =
       String.intercalate "\n" ([(⟨none, none, none⟩ : GdbMsg)].map formatMsg)) :=
  ⟨List.cons_ne_nil _ _,
    renderer_total_defaults none none none [⟨none, none, none⟩] (List.cons_ne_nil _ _)⟩

/-- Claim C5: for a registered session and a path that does not exist, both
loaders return the "does not exist" error string and send zero commands to
the subprocess. -/
theorem load_missing_file_short_circuit (t : GDBTools) (sid path : String)
    (g : Controller) (fe : String → Bool)
    (hl : dictLookup t.sessionManager.sessions sid = some g)
    (hf : fe path = false) :
    (t.load_program fe sid path).1 =
      "Error: Program file '" ++ path ++ "' does not exist" ∧
    containsStr (t.load_program fe sid path).1 "does not exist" = true ∧
    (t.load_program fe sid path).2 = [] ∧
    (t.load_core_dump fe sid path).1 =
      "Error: Core file '" ++ path ++ "' does not exist" ∧
    containsStr (t.load_core_dump fe sid path).1 "does not exist" = true ∧
    (t.load_core_dump fe sid path).2 = [] := by
  have hs : t.sessionManager.get_session sid = .ok g := by
    simp [GDBSessionManager.get_session, hl]
  have hp : t.load_program fe sid path =
      ("Error: Program file '" ++ path ++ "' does not exist", []) := by
    simp [GDBTools.load_program, hs, hf]
  have hc : t.load_core_dump fe sid path =
      ("Error: Core file '" ++ path ++ "' does not exist", []) := by
    simp [GDBTools.load_core_dump, hs, hf]
  refine ⟨by rw [hp], ?_, by rw [hp], by rw [hc], ?_, by rw [hc]⟩
  · rw [hp]; exact containsStr_concat _ _ _ notExist_in_tail
  · rw [hc]; exact containsStr_concat _ _ _ notExist_in_tail

/-- Witness for `load_missing_file_short_circuit` with a file-existence
predicate that is false everywhere. -/
theorem load_missing_file_short_circuit_witness :
    (dictLookup tOne.sessionManager.sessions "s1" = some okCtrl ∧
      (fun _ : String => false) "/nonexistent" = false) ∧
    ((tOne.load_program (fun _ => false) "s1" "/nonexistent").1 =
       "Error: Program file '" ++ "/nonexistent" ++ "' does not exist" ∧
     containsStr (tOne.load_program (fun _ => false) "s1" "/nonexistent").1
       "does not exist" = true ∧
     (tOne.load_program (fun _ => false) "s1" "/nonexistent").2 = [] ∧
     (tOne.load_core_dump (fun _ => false) "s1" "/nonexistent").1 =
       "Error: Core file '" ++ "/nonexistent" ++ "' does not exist" ∧
     containsStr (tOne.load_core_dump (fun _ => false) "s1" "/nonexistent").1
       "does not exist" = true ∧
     (tOne.load_core_dump (fun _ => false) "s1" "/nonexistent").2 = []) :=
  ⟨⟨rfl, rfl⟩,
    load_missing_file_short_circuit tOne "s1" "/nonexistent" okCtrl (fun _ => false) rfl rfl⟩

/-- Claim C9: for a registered session, `set_watchpoint` sends exactly
`-break-watch -r <e>` for kind "read", `-break-watch -a <e>` for kind
"access", and the write form `-break-watch <e>` both for kind "write" and
for every other value. -/
theorem set_watchpoint_commands (t : GDBTools) (sid e wt : String) (g : Controller)
    (hl : dictLookup t.sessionManager.sessions sid = some g)
    (hr : wt ≠ "read") (ha : wt ≠ "access") :
    (t.set_watchpoint sid e "read").2 = ["-break-watch -r " ++ e] ∧
    (t.set_watchpoint sid e "access").2 = ["-break-watch -a " ++ e] ∧
    (t.set_watchpoint sid e "write").2 = ["-break-watch " ++ e] ∧
    (t.set_watchpoint sid e wt).2 = ["-break-watch " ++ e] := by
  have hs : t.sessionManager.get_session sid = .ok g := by
    simp [GDBSessionManager.get_session, hl]
  refine ⟨?_, ?_, ?_, ?_⟩ <;> simp [GDBTools.set_watchpoint, hs, hr, ha]

/-- Witness for `set_watchpoint_commands` with the unrecognized kind
"foo". -/
theorem set_watchpoint_commands_witness :
    (dictLookup tOne.sessionManager.sessions "s1" = some okCtrl ∧
      ("foo" : String) ≠ "read" ∧ ("foo" : String) ≠ "access") ∧
    ((tOne.set_watchpoint "s1" "x" "read").2 = ["-break-watch -r " ++ "x"] ∧
     (tOne.set_watchpoint "s1" "x" "access").2 = ["-break-watch -a " ++ "x"] ∧
     (tOne.set_watchpoint "s1" "x" "write").2 = ["-break-watch " ++ "x"] ∧
     (tOne.set_watchpoint "s1" "x" "foo").2 = ["-break-watch " ++ "x"]) :=
  ⟨⟨rfl, by decide, by decide⟩,
    set_watchpoint_commands tOne "s1" "x" "foo" okCtrl rfl (by decide) (by decide)⟩

/-- Claim C10: for a registered session, `get_stack_frames` sends the
bounded command only when BOTH bounds are non-None; with exactly one bound
(or none) the single provided bound is ignored and the unbounded command is
sent. -/
theorem get_stack_frames_commands (t : GDBTools) (sid : String) (lo hi : Int)
    (g : Controller) (hl : dictLookup t.sessionManager.sessions sid = some g) :
    (t.get_stack_frames sid (some lo) (some hi)).2 =
      ["-stack-list-frames " ++ toString lo ++ " " ++ toString hi] ∧
    (t.get_stack_frames sid (some lo) none).2 = ["-stack-list-frames"] ∧
    (t.get_stack_frames sid none (some hi)).2 = ["-stack-list-frames"] ∧
    (t.get_stack_frames sid none none).2 = ["-stack-list-frames"] := by
  have hs : t.sessionManager.get_session sid = .ok g := by
    simp [GDBSessionManager.get_session, hl]
  refine ⟨?_, ?_, ?_, ?_⟩ <;> simp [GDBTools.get_stack_frames, hs]

/-- Witness for `get_stack_frames_commands` at bounds 0 and 5. -/
theorem get_stack_frames_commands_witness :
    dictLookup tOne.sessionManager.sessions "s1" = some okCtrl ∧
    ((tOne.get_stack_frames "s1" (some 0) (some 5)).2 =
       ["-stack-list-frames " ++ toString (0 : Int) ++ " " ++ toString (5 : Int)] ∧
     (tOne.get_stack_frames "s1" (some 0) none).2 = ["-stack-list-frames"] ∧
     (tOne.get_stack_frames "s1" none (some 5)).2 = ["-stack-list-frames"] ∧
     (tOne.get_stack_frames "s1" none none).2 = ["-stack-list-frames"]) :=
  ⟨rfl, get_stack_frames_commands tOne "s1" 0 5 okCtrl rfl⟩

/-- Claim C2: for any identifier absent from the registry, `get_session`
fails with the SessionNotFound error, whose message contains "not found",
and every façade capability taking a session identifier returns (rather
than raising) a string containing "not found". -/
theorem absent_session_not_found (t : GDBTools) (sid s s2 : String) (i : Int)
    (b : Bool) (oi oj : Option Int) (ol : Option (List Int)) (fe : String → Bool)
    (h : t.sessionManager.has_session sid = false) :
    t.sessionManager.get_session sid = .error (sessionNotFoundMsg sid) ∧
    containsStr (sessionNotFoundMsg sid) "not found" = true ∧
    containsStr (t.terminate_session sid).1 "not found" = true ∧
    containsStr (t.load_program fe sid s).1 "not found" = true ∧
    containsStr (t.execute_command sid s).1 "not found" = true ∧
    containsStr (t.attach_to_process sid i).1 "not found" = true ∧
    containsStr (t.load_core_dump fe sid s).1 "not found" = true ∧
    containsStr (t.set_breakpoint sid s).1 "not found" = true ∧
    containsStr (t.continue_execution sid).1 "not found" = true ∧
    containsStr (t.step_execution sid).1 "not found" = true ∧
    containsStr (t.next_execution sid).1 "not found" = true ∧
    containsStr (t.finish_function sid).1 "not found" = true ∧
    containsStr (t.get_backtrace sid).1 "not found" = true ∧
    containsStr (t.print_expression sid s).1 "not found" = true ∧
    containsStr (t.examine_memory sid s s2).1 "not found" = true ∧
    containsStr (t.get_registers sid).1 "not found" = true ∧
    containsStr (t.disassemble_function sid s b).1 "not found" = true ∧
    containsStr (t.disassemble_address_range sid s s2 b).1 "not found" = true ∧
    containsStr (t.disassemble_around_pc sid i b).1 "not found" = true ∧
    containsStr (t.get_local_variables sid b).1 "not found" = true ∧
    containsStr (t.get_function_arguments sid b).1 "not found" = true ∧
    containsStr (t.get_stack_frames sid oi oj).1 "not found" = true ∧
    containsStr (t.evaluate_expression sid s).1 "not found" = true ∧
    containsStr (t.get_register_names sid).1 "not found" = true ∧
    containsStr (t.get_register_values sid ol).1 "not found" = true ∧
    containsStr (t.get_changed_registers sid).1 "not found" = true ∧
    containsStr (t.read_memory_bytes sid s i).1 "not found" = true ∧
    containsStr (t.get_thread_info sid).1 "not found" = true ∧
    containsStr (t.switch_thread sid s).1 "not found" = true ∧
    containsStr (t.get_breakpoint_list sid).1 "not found" = true ∧
    containsStr (t.delete_breakpoint sid s).1 "not found" = true ∧
    containsStr (t.enable_breakpoint sid s).1 "not found" = true ∧
    containsStr (t.disable_breakpoint sid s).1 "not found" = true ∧
    containsStr (t.set_watchpoint sid s s2).1 "not found" = true ∧
    containsStr (t.get_symbol_info sid s).1 "not found" = true ∧
    containsStr (t.list_source_files sid).1 "not found" = true := by
  have hl : dictLookup t.sessionManager.sessions sid = none := by
    cases hx : dictLookup t.sessionManager.sessions sid with
    | none => rfl
    | some g => simp [GDBSessionManager.has_session, dictContains, hx] at h
  have herr : t.sessionManager.get_session sid = .error (sessionNotFoundMsg sid) := by
    simp [GDBSessionManager.get_session, hl]
  have hnf : containsStr (sessionNotFoundMsg sid) "not found" = true :=
    containsStr_concat _ _ _ notFound_in_tail
  refine ⟨herr, hnf, ?_, ?_, ?_, ?_, ?_, ?_, ?_, ?_, ?_, ?_, ?_, ?_, ?_, ?_, ?_,
    ?_, ?_, ?_, ?_, ?_, ?_, ?_, ?_, ?_, ?_, ?_, ?_, ?_, ?_, ?_, ?_, ?_, ?_, ?_⟩
  · simp only [GDBTools.terminate_session]
    have hterm : t.sessionManager.terminate_session sid = (false, t.sessionManager) := by
      simp [GDBSessionManager.terminate_session, hl]
    rw [hterm]
    simp only [Bool.false_eq_true, if_false]
    exact containsStr_concat _ _ _ notFound_in_short_tail
  all_goals
    simp [GDBTools.load_program, GDBTools.execute_command, GDBTools.attach_to_process,
      GDBTools.load_core_dump, GDBTools.set_breakpoint, GDBTools.continue_execution,
      GDBTools.step_execution, GDBTools.next_execution, GDBTools.finish_function,
      GDBTools.get_backtrace, GDBTools.print_expression, GDBTools.examine_memory,
      GDBTools.get_registers, GDBTools.disassemble_function,
      GDBTools.disassemble_address_range, GDBTools.disassemble_around_pc,
      GDBTools.get_local_variables, GDBTools.get_function_arguments,
      GDBTools.get_stack_frames, GDBTools.evaluate_expression,
      GDBTools.get_register_names, GDBTools.get_register_values,
      GDBTools.get_changed_registers, GDBTools.read_memory_bytes,
      GDBTools.get_thread_info, GDBTools.switch_thread, GDBTools.get_breakpoint_list,
      GDBTools.delete_breakpoint, GDBTools.enable_breakpoint,
      GDBTools.disable_breakpoint, GDBTools.set_watchpoint, GDBTools.get_symbol_info,
      GDBTools.list_source_files, herr]
  all_goals
    exact containsStr_concat _ _ _ hnf

/-- Witness for `absent_session_not_found` on the empty registry. -/
theorem absent_session_not_found_witness :
    tEmpty.sessionManager.has_session "nosuch" = false ∧
    (tEmpty.sessionManager.get_session "nosuch" = .error (sessionNotFoundMsg "nosuch") ∧
     containsStr (sessionNotFoundMsg "nosuch") "not found" = true ∧
     containsStr (tEmpty.terminate_session "nosuch").1 "not found" = true ∧
     containsStr (tEmpty.load_program (fun _ => true) "nosuch" "a").1 "not found" = true ∧
     containsStr (tEmpty.execute_command "nosuch" "a").1 "not found" = true ∧
     containsStr (tEmpty.attach_to_process "nosuch" 0).1 "not found" = true ∧
     containsStr (tEmpty.load_core_dump (fun _ => true) "nosuch" "a").1 "not found" = true ∧
     containsStr (tEmpty.set_breakpoint "nosuch" "a").1 "not found" = true ∧
     containsStr (tEmpty.continue_execution "nosuch").1 "not found" = true ∧
     containsStr (tEmpty.step_execution "nosuch").1 "not found" = true ∧
     containsStr (tEmpty.next_execution "nosuch").1 "not found" = true ∧
     containsStr (tEmpty.finish_function "nosuch").1 "not found" = true ∧
     containsStr (tEmpty.get_backtrace "nosuch").1 "not found" = true ∧
     containsStr (tEmpty.print_expression "nosuch" "a").1 "not found" = true ∧
     containsStr (tEmpty.examine_memory "nosuch" "a" "b").1 "not found" = true ∧
     containsStr (tEmpty.get_registers "nosuch").1 "not found" = true ∧
     containsStr (tEmpty.disassemble_function "nosuch" "a" false).1 "not found" = true ∧
     containsStr (tEmpty.disassemble_address_range "nosuch" "a" "b" false).1 "not found" = true ∧
     containsStr (tEmpty.disassemble_around_pc "nosuch" 0 false).1 "not found" = true ∧
     containsStr (tEmpty.get_local_variables "nosuch" false).1 "not found" = true ∧
     containsStr (tEmpty.get_function_arguments "nosuch" false).1 "not found" = true ∧
     containsStr (tEmpty.get_stack_frames "nosuch" none none).1 "not found" = true ∧
     containsStr (tEmpty.evaluate_expression "nosuch" "a").1 "not found" = true ∧
     containsStr (tEmpty.get_register_names "nosuch").1 "not found" = true ∧
     containsStr (tEmpty.get_register_values "nosuch" none).1 "not found" = true ∧
     containsStr (tEmpty.get_changed_registers "nosuch").1 "not found" = true ∧
     containsStr (tEmpty.read_memory_bytes "nosuch" "a" 0).1 "not found" = true ∧
     containsStr (tEmpty.get_thread_info "nosuch").1 "not found" = true ∧
     containsStr (tEmpty.switch_thread "nosuch" "a").1 "not found" = true ∧
     containsStr (tEmpty.get_breakpoint_list "nosuch").1 "not found" = true ∧
     containsStr (tEmpty.delete_breakpoint "nosuch" "a").1 "not found" = true ∧
     containsStr (tEmpty.enable_breakpoint "nosuch" "a").1 "not found" = true ∧
     containsStr (tEmpty.disable_breakpoint "nosuch" "a").1 "not found" = true ∧
     containsStr (tEmpty.set_watchpoint "nosuch" "a" "b").1 "not found" = true ∧
     containsStr (tEmpty.get_symbol_info "nosuch" "a").1 "not found" = true ∧
     containsStr (tEmpty.list_source_files "nosuch").1 "not found" = true) :=
  ⟨rfl, absent_session_not_found tEmpty "nosuch" "a" "b" 0 false none none none
    (fun _ => true) rfl⟩

end GdbMcp
